import Mathlib

/-
Verification development for the AR Studios submission backend
(src/main.py, src/schemas.py): a FastAPI service with a single admin
account (JWT bearer auth), public submission intake with optional PDF
upload (stored base64-encoded in the document store), and admin
list/get/update/delete endpoints.

The embedding below models:
  - the Python string helpers used by the code (str.lower, str.endswith,
    truthiness of optional strings, `x or default`),
  - the libraries the code calls (base64, python-jose JWT,
    datetime.fromisoformat, pydantic EmailStr, MongoDB query matching),
  - the document store (database.py is not part of src/: its
    create_document operation is modelled from the spec's store contract),
  - the endpoint handlers themselves, translated line by line.

Time is modelled as a Nat count of seconds; store ids as Nat.
-/

-- ===== Python string helpers =====

/-- Models Python `str.lower()`: lowercases every character. -/
def pyLower (s : String) : String := String.mk (s.data.map Char.toLower)

/-- Models Python `str.endswith(suffix)`. -/
def strEndsWith (s suf : String) : Bool :=
  decide (s.data.reverse.take suf.data.length = suf.data.reverse)

/-- Models `file.filename.lower().endswith('.pdf')` from main.py line 132. -/
def pdfNameOk (filename : String) : Bool :=
  strEndsWith (pyLower filename) ".pdf"

/-- Models Python `x or default` on an optional string (None and "" are falsy). -/
def pyOrDefault : Option String → String → String
  | none, d => d
  | some s, d => if s == "" then d else s

/-- Models Python truthiness of an optional string query parameter:
None and "" are falsy, used by `if status:` / `if q:` / `if start_date:`. -/
def truthyOpt : Option String → Option String
  | none => none
  | some s => if s == "" then none else some s

-- ===== base64 (modelled library behavior: base64.b64encode / b64decode) =====

/-- The standard base64 alphabet, as a character list. -/
def b64Alphabet : List Char :=
  "ABCDEFGHIJKLMNOPQRSTUVWXYZabcdefghijklmnopqrstuvwxyz0123456789+/".data

/-- Character for a 6-bit value. -/
def b64Char (i : Nat) : Char := b64Alphabet.getD i 'A'

/-- Index of a character in the base64 alphabet (inverse of b64Char on 0..63). -/
def decValAux : List Char → Char → Nat
  | [], _ => 0
  | a :: as, c => if a == c then 0 else 1 + decValAux as c

/-- Decoded 6-bit value of a base64 character. -/
def decVal (c : Char) : Nat := decValAux b64Alphabet c

/-- Modelled library behavior (base64.b64encode) on a list of byte values:
groups of three bytes become four alphabet characters, with '=' padding. -/
def b64EncodeList : List Nat → List Char
  | [] => []
  | [a] => [b64Char (a / 4), b64Char (a % 4 * 16), '=', '=']
  | [a, b] => [b64Char (a / 4), b64Char (a % 4 * 16 + b / 16), b64Char (b % 16 * 4), '=']
  | a :: b :: c :: rest =>
    b64Char (a / 4) :: b64Char (a % 4 * 16 + b / 16) ::
      b64Char (b % 16 * 4 + c / 64) :: b64Char (c % 64) :: b64EncodeList rest

/-- Modelled library behavior (base64.b64decode) on a character list:
groups of four characters become up to three bytes, '=' padding trims. -/
def b64DecodeList : List Char → List Nat
  | c1 :: c2 :: c3 :: c4 :: rest =>
    if c3 = '=' then [decVal c1 * 4 + decVal c2 / 16]
    else if c4 = '=' then [decVal c1 * 4 + decVal c2 / 16, decVal c2 % 16 * 16 + decVal c3 / 4]
    else (decVal c1 * 4 + decVal c2 / 16) :: (decVal c2 % 16 * 16 + decVal c3 / 4) ::
      (decVal c3 % 4 * 64 + decVal c4) :: b64DecodeList rest
  | _ => []

/-- Models `b64encode(content).decode('utf-8')` from main.py line 139. -/
def b64encode (bs : List Nat) : String := String.mk (b64EncodeList bs)

/-- Models `b64decode(doc['content_b64'])` from main.py line 180. -/
def b64decode (s : String) : List Nat := b64DecodeList s.data

-- ===== regex matching (modelled library behavior: MongoDB $regex with $options i) =====
-- main.py lines 210-214 pass the raw query string q, unescaped, as a regular
-- expression. The model covers the fragment where every pattern character is
-- literal except the dot wildcard, matched case-insensitively anywhere in the text.

/-- Case-insensitive literal match of a pattern list against a prefix of a text list. -/
def litMatchAt : List Char → List Char → Bool
  | [], _ => true
  | _ :: _, [] => false
  | p :: ps, c :: cs => (p.toLower == c.toLower) && litMatchAt ps cs

/-- Case-insensitive regex-fragment match against a prefix of a text list:
the dot pattern character matches any text character. -/
def patMatchAt : List Char → List Char → Bool
  | [], _ => true
  | _ :: _, [] => false
  | p :: ps, c :: cs => (p == '.' || p.toLower == c.toLower) && patMatchAt ps cs

/-- All suffixes of a character list, longest first, including the empty suffix. -/
def suffixesL : List Char → List (List Char)
  | [] => [[]]
  | c :: cs => (c :: cs) :: suffixesL cs

/-- Case-insensitive literal substring occurrence of q in s
(the matching the spec claims for the free-text filter). -/
def substrCI (q s : String) : Bool :=
  (suffixesL s.data).any (fun t => litMatchAt q.data t)

/-- Case-insensitive regex search of pattern q anywhere in s
(modelled MongoDB `q` with options i — what the code actually does). -/
def regexFindCI (q s : String) : Bool :=
  (suffixesL s.data).any (fun t => patMatchAt q.data t)

-- ===== email validation (modelled library behavior: pydantic EmailStr) =====

/-- Splits a character list at a separator character. -/
def breakAtChar (sep : Char) : List Char → List (List Char)
  | [] => [[]]
  | c :: cs =>
    let r := breakAtChar sep cs
    if c == sep then [] :: r
    else
      match r with
      | [] => [[c]]
      | h :: t => (c :: h) :: t

/-- Modelled library behavior (pydantic EmailStr, schemas.py line 25): a
simplified syntactic check — exactly one at-sign, non-empty local part, and a
domain containing a dot. In particular the empty string is not a valid email. -/
def emailValid (s : String) : Bool :=
  match breakAtChar '@' s.data with
  | [l, d] => !l.isEmpty && !d.isEmpty && d.contains '.'
  | _ => false

-- ===== ISO date parsing (modelled library behavior: datetime.fromisoformat) =====

/-- Numeric value of a decimal digit character. -/
def digitVal (c : Char) : Option Nat :=
  if c.isDigit then some (c.toNat - 48) else none

/-- Two decimal digit characters as a number. -/
def twoDigits (a b : Char) : Option Nat := do
  let x ← digitVal a
  let y ← digitVal b
  pure (x * 10 + y)

/-- Four decimal digit characters as a number. -/
def fourDigits (a b c d : Char) : Option Nat := do
  let x ← twoDigits a b
  let y ← twoDigits c d
  pure (x * 100 + y)

/-- Timestamp for a calendar date, after a range check on month and day. -/
def dateToStamp (y mo d : Nat) : Option Nat :=
  if 1 ≤ mo ∧ mo ≤ 12 ∧ 1 ≤ d ∧ d ≤ 31 then some (((y * 12 + mo) * 31 + d) * 86400)
  else none

/-- Modelled library behavior (datetime.fromisoformat, main.py lines 218 and
220): accepts the fragment "YYYY-MM-DD", optionally followed by a separator
(the letter T or a space) and "HH:MM:SS"; every other string fails to parse,
which in Python raises ValueError. -/
def parseISODate (s : String) : Option Nat :=
  match s.data with
  | [y1, y2, y3, y4, '-', m1, m2, '-', d1, d2] => do
    let y ← fourDigits y1 y2 y3 y4
    let mo ← twoDigits m1 m2
    let d ← twoDigits d1 d2
    dateToStamp y mo d
  | [y1, y2, y3, y4, '-', m1, m2, '-', d1, d2, sep, h1, h2, ':', mi1, mi2, ':', s1, s2] =>
    if sep = 'T' ∨ sep = ' ' then do
      let y ← fourDigits y1 y2 y3 y4
      let mo ← twoDigits m1 m2
      let d ← twoDigits d1 d2
      let base ← dateToStamp y mo d
      let hh ← twoDigits h1 h2
      let mm ← twoDigits mi1 mi2
      let ss ← twoDigits s1 s2
      if hh ≤ 23 ∧ mm ≤ 59 ∧ ss ≤ 59 then some (base + hh * 3600 + mm * 60 + ss) else none
    else none
  | _ => none

-- ===== configuration constants (main.py lines 17-27; environment defaults) =====

/-- JWT signing secret (main.py line 17, default of the JWT_SECRET variable). -/
def SECRET_KEY : String := "super-secret-key-change"

/-- Token lifetime in minutes (main.py line 19). -/
def ACCESS_TOKEN_EXPIRE_MINUTES : Nat := 60 * 12

/-- Configured admin email (main.py line 26, default of the ADMIN_EMAIL variable). -/
def ADMIN_EMAIL : String := "admin@arstudios.com"

/-- Studio notification address (main.py line 163, default of STUDIO_EMAIL). -/
def STUDIO_EMAIL : String := "studio@arstudios.com"

-- ===== JWT (modelled library behavior: python-jose jwt.encode / jwt.decode) =====

/-- Claims carried by a token: optional subject and optional expiry timestamp. -/
structure JWTClaims where
  sub : Option String
  exp : Option Nat
deriving DecidableEq

/-- A token is modelled as its claims plus the key it was signed with;
decoding with any other key fails the signature check. A malformed or forged
bearer string is represented by a token whose key differs from the server's. -/
structure JWTToken where
  claims : JWTClaims
  key : String
deriving DecidableEq

/-- Failure causes inside the JWT library (all collapse to JWTError in Python). -/
inductive JWTFailure
  | invalidSignature
  | expiredSignature
deriving DecidableEq

/-- Models jose `jwt.encode(to_encode, SECRET_KEY, algorithm=ALGORITHM)`. -/
def jwt_encode (claims : JWTClaims) (key : String) : JWTToken := ⟨claims, key⟩

/-- Models jose `jwt.decode(token, key, algorithms=[ALGORITHM])` at time now:
fails if the signature key differs, or if an exp claim is present and past. -/
def jwt_decode (t : JWTToken) (key : String) (now : Nat) : Except JWTFailure JWTClaims :=
  if t.key == key then
    match t.claims.exp with
    | some e => if e < now then .error .expiredSignature else .ok t.claims
    | none => .ok t.claims
  else .error .invalidSignature

-- ===== errors (FastAPI HTTPException and unhandled Python exceptions) =====

/-- How a handler can fail: an HTTPException with status and detail, a pydantic
validation error escaping the handler, or an unhandled ValueError. The latter
two are surfaced by the framework as 500-equivalent server errors. -/
inductive AppError
  | http (status : Nat) (detail : String)
  | validationError (msg : String)
  | valueError (msg : String)
deriving DecidableEq

/-- Whether an error is an HTTPException with status 400. -/
def errIs400 : AppError → Bool
  | .http s _ => s == 400
  | _ => false

-- ===== data model (schemas.py and the documents written by main.py) =====

/-- The status enumeration of schemas.py line 31. -/
inductive SubmissionStatus
  | Pending
  | InReview
  | Approved
  | Completed
deriving DecidableEq

/-- The string stored in the document for each status literal. -/
def statusStr : SubmissionStatus → String
  | .Pending => "Pending"
  | .InReview => "In Review"
  | .Approved => "Approved"
  | .Completed => "Completed"

/-- A persisted submission document (schemas.py lines 19-33). Store ids are
Nat in the model, so file_key is an optional Nat. The updated_at field is not
part of the pydantic model but is added to the stored document by the PATCH
handler (main.py line 249); it is absent (none) at creation. -/
structure SubmissionDoc where
  name : String
  email : String
  novel_title : String
  synopsis : String
  message : Option String
  file_url : Option String
  file_key : Option Nat
  status : SubmissionStatus
  notes : List String
  submitted_at : Nat
  updated_at : Option Nat
deriving DecidableEq

/-- A stored file document (main.py lines 140-144). -/
structure StoredFileDoc where
  filename : String
  content_b64 : String
  mime : String
deriving DecidableEq

/-- A notification log document (main.py lines 161-167); the to_addr field
models the document's recipient key. -/
structure NotificationDoc where
  type : String
  to_addr : String
  subject : String
  payload : SubmissionDoc
  created_at : Nat
deriving DecidableEq

/-- The document store: one list of (id, document) pairs per collection, plus
the next id the store will assign. -/
structure DB where
  submission : List (Nat × SubmissionDoc)
  submission_files : List (Nat × StoredFileDoc)
  notifications : List (Nat × NotificationDoc)
  nextId : Nat
deriving DecidableEq

/-- Modelled from the spec: `create(collection, record) -> id` of the Document
Store Gateway contract (database.py is not under src/). Appends the record to
the submission collection under a fresh store-assigned id and returns the id. -/
def create_submission_doc (st : DB) (doc : SubmissionDoc) : DB × Nat :=
  ({ st with submission := st.submission ++ [(st.nextId, doc)], nextId := st.nextId + 1 },
    st.nextId)

/-- Modelled from the spec: `create(collection, record) -> id` for the
submission_files collection (database.py is not under src/). -/
def create_submission_file (st : DB) (doc : StoredFileDoc) : DB × Nat :=
  ({ st with
      submission_files := st.submission_files ++ [(st.nextId, doc)],
      nextId := st.nextId + 1 },
    st.nextId)

/-- Modelled from the spec: `create(collection, record) -> id` for the
notifications collection (database.py is not under src/). -/
def create_notification (st : DB) (doc : NotificationDoc) : DB × Nat :=
  ({ st with
      notifications := st.notifications ++ [(st.nextId, doc)],
      nextId := st.nextId + 1 },
    st.nextId)

-- ===== POST /api/submit (main.py lines 117-169) =====

/-- The uploaded file of a multipart request: filename, byte content, and the
client-declared content type (None or "" falls back to application/pdf). -/
structure UploadFile where
  filename : String
  content : List Nat
  content_type : Option String
deriving DecidableEq

/-- The form fields of POST /api/submit (main.py lines 119-124). -/
structure SubmitForm where
  name : String
  email : String
  novel_title : String
  synopsis : String
  message : Option String
  file : Option UploadFile
deriving DecidableEq

/-- Second half of the submit handler (main.py lines 147-169): builds the
Submission pydantic model — whose EmailStr field validates the email and, on
failure, raises a validation error out of the handler — then persists the
submission document and the notification log document, returning the new
submission's id. The two datetime.now calls of lines 155 and 166 are modelled
as the single instant now. -/
def finishSubmission (st : DB) (form : SubmitForm) (file_url : Option String)
    (file_key : Option Nat) (now : Nat) : DB × Except AppError Nat :=
  if emailValid form.email = false then
    (st, .error (.validationError "value is not a valid email address"))
  else
    let data : SubmissionDoc :=
      ⟨form.name, form.email, form.novel_title, form.synopsis, form.message,
        file_url, file_key, SubmissionStatus.Pending, [], now, none⟩
    let res := create_submission_doc st data
    let res2 := create_notification res.1
      ⟨"new_submission", STUDIO_EMAIL, "New Submission: " ++ form.novel_title, data, now⟩
    (res2.1, .ok res.2)

/-- The submit handler (main.py lines 117-169). If a file is attached: reject
non-.pdf filenames with 400, reject content over 10 MiB with 400, otherwise
store the base64-encoded bytes as a stored-file document and derive file_url
and file_key from its id. Then persist the submission via finishSubmission. -/
def submit_project (st : DB) (form : SubmitForm) (now : Nat) : DB × Except AppError Nat :=
  match form.file with
  | some f =>
    if pdfNameOk f.filename = false then
      (st, .error (.http 400 "Only PDF uploads are allowed"))
    else if f.content.length > 10 * 1024 * 1024 then
      (st, .error (.http 400 "File too large (max 10MB in demo)"))
    else
      let res := create_submission_file st
        ⟨f.filename, b64encode f.content, pyOrDefault f.content_type "application/pdf"⟩
      finishSubmission res.1 form (some ("/api/files/" ++ toString res.2)) (some res.2) now
  | none => finishSubmission st form none none now

-- ===== GET /api/files/{file_id} (main.py lines 173-181) =====

/-- The file endpoint: look the stored file up by id (404 when absent), decode
its base64 content, and serve the bytes with the stored MIME type. -/
def get_file (st : DB) (file_id : Nat) : Except AppError (List Nat × String) :=
  match (st.submission_files.find? (fun p => p.1 == file_id)).map (fun p => p.2) with
  | none => .error (.http 404 "File not found")
  | some doc => .ok (b64decode doc.content_b64, doc.mime)

-- ===== auth (main.py lines 57-74) =====

/-- create_access_token (main.py lines 57-62): copies the data (here: the
subject claim), adds an absolute expiry now plus the delta (default
ACCESS_TOKEN_EXPIRE_MINUTES, in seconds in the model), and signs with
SECRET_KEY. -/
def create_access_token (sub : Option String) (expires_delta : Option Nat) (now : Nat) :
    JWTToken :=
  jwt_encode ⟨sub, some (now + expires_delta.getD (ACCESS_TOKEN_EXPIRE_MINUTES * 60))⟩
    SECRET_KEY

/-- get_current_admin (main.py lines 65-74): decode the bearer token with the
server secret; on any JWT failure, on a missing subject claim, or on a subject
that does not case-insensitively equal ADMIN_EMAIL, raise the single generic
401 credentials_exception; otherwise return the admin identity (its email). -/
def get_current_admin (t : JWTToken) (now : Nat) : Except AppError String :=
  match jwt_decode t SECRET_KEY now with
  | .error _ => .error (.http 401 "Could not validate credentials")
  | .ok payload =>
    match payload.sub with
    | none => .error (.http 401 "Could not validate credentials")
    | some email =>
      if pyLower email == pyLower ADMIN_EMAIL then .ok ADMIN_EMAIL
      else .error (.http 401 "Could not validate credentials")

-- ===== GET /api/admin/submissions (main.py lines 195-231) =====

/-- The Mongo query document built by the handler: optional status equality,
optional case-insensitive regex across name/email/novel_title, and optional
inclusive bounds on submitted_at. -/
structure MongoQuery where
  status : Option String
  regexQ : Option String
  subGe : Option Nat
  subLe : Option Nat
deriving DecidableEq

/-- Modelled library behavior (MongoDB document matching) for the query shape
the handler builds: status equality, the three-way regex or, and the
submitted_at range, each vacuously true when absent. -/
def mongoMatch (qu : MongoQuery) (doc : SubmissionDoc) : Bool :=
  (match qu.status with
    | none => true
    | some s => statusStr doc.status == s) &&
  (match qu.regexQ with
    | none => true
    | some q => regexFindCI q doc.name || regexFindCI q doc.email ||
        regexFindCI q doc.novel_title) &&
  (match qu.subGe with
    | none => true
    | some t => decide (t ≤ doc.submitted_at)) &&
  (match qu.subLe with
    | none => true
    | some t => decide (doc.submitted_at ≤ t))

/-- The three-way regex disjunction of main.py lines 210-214. -/
def regexOrDoc (q : String) (doc : SubmissionDoc) : Bool :=
  regexFindCI q doc.name || regexFindCI q doc.email || regexFindCI q doc.novel_title

/-- Descending insertion by submitted_at. -/
def insertDesc (x : Nat × SubmissionDoc) : List (Nat × SubmissionDoc) →
    List (Nat × SubmissionDoc)
  | [] => [x]
  | y :: ys =>
    if x.2.submitted_at ≤ y.2.submitted_at then y :: insertDesc x ys else x :: y :: ys

/-- Modelled library behavior (cursor.sort('submitted_at', -1)): newest first. -/
def sortByDateDesc : List (Nat × SubmissionDoc) → List (Nat × SubmissionDoc)
  | [] => []
  | x :: xs => insertDesc x (sortByDateDesc xs)

/-- The store operations a request can issue, for ordering observations. -/
inductive StoreOp
  | countDocuments
  | find
deriving DecidableEq

/-- The response shape of the list endpoint: the page's (id, document) pairs,
the total count matching the filter, and the echoed page and page_size. -/
structure ListResult where
  items : List (Nat × SubmissionDoc)
  total : Nat
  page : Nat
  page_size : Nat
deriving DecidableEq

/-- Models `datetime.fromisoformat` on an optional (truthiness-filtered) date
string: absent strings parse to none, a failed parse raises ValueError. -/
def parseOptDate (o : Option String) : Except AppError (Option Nat) :=
  match o with
  | none => .ok none
  | some s =>
    match parseISODate s with
    | some t => .ok (some t)
    | none => .error (.valueError ("Invalid isoformat string: " ++ s))

/-- The query execution of main.py lines 224-231: count matching documents,
then sort newest first, skip (page-1)*page_size, and take page_size. -/
def runQuery (st : DB) (page ps : Nat) (qu : MongoQuery) : ListResult :=
  ⟨((sortByDateDesc (st.submission.filter (fun p => mongoMatch qu p.2))).drop
      ((page - 1) * ps)).take ps,
    (st.submission.filter (fun p => mongoMatch qu p.2)).length, page, ps⟩

/-- The list handler (main.py lines 195-231): build the query from the truthy
parameters, parse the date bounds (an unparseable non-empty date string raises
ValueError before any store operation), then count and fetch. The first
component is the trace of store operations the request issued. -/
def list_submissions (st : DB) (page ps : Nat)
    (q status start_date end_date : Option String) :
    List StoreOp × Except AppError ListResult :=
  match parseOptDate (truthyOpt start_date) with
  | .error e => ([], .error e)
  | .ok ge =>
    match parseOptDate (truthyOpt end_date) with
    | .error e => ([], .error e)
    | .ok le =>
      ([.countDocuments, .find],
        .ok (runQuery st page ps ⟨truthyOpt status, truthyOpt q, ge, le⟩))

-- ===== PATCH and DELETE /api/admin/submissions/{id} (main.py lines 246-263) =====

/-- The PATCH body (schemas.py lines 41-43). -/
structure UpdateSubmission where
  status : Option SubmissionStatus
  add_note : Option String
deriving DecidableEq

/-- Modelled library behavior (update_one with a push on notes): appends the
note to the first-matching document; a filter matching nothing is a no-op. -/
def update_one_push (st : DB) (id : Nat) (note : String) : DB :=
  { st with
      submission := st.submission.map (fun p =>
        if p.1 = id then (p.1, { p.2 with notes := p.2.notes ++ [note] }) else p) }

/-- Modelled library behavior (update_one with a set): sets updated_at and,
when provided, status on the matching document; no match means no change. -/
def update_one_set (st : DB) (id : Nat) (status : Option SubmissionStatus) (now : Nat) :
    DB :=
  { st with
      submission := st.submission.map (fun p =>
        if p.1 = id then
          (p.1, { p.2 with status := status.getD p.2.status, updated_at := some now })
        else p) }

/-- The PATCH handler (main.py lines 246-255): always prepares an updated_at
touch, adds status to the set when the payload carries one (Python truthiness:
the enum values are non-empty strings), pushes the note when the payload
carries a non-empty one, applies the set, and returns the success flag —
without any existence check on the id. -/
def update_submission (st : DB) (id : Nat) (payload : UpdateSubmission) (now : Nat) :
    DB × Bool :=
  let st1 :=
    match payload.add_note with
    | some note => if note == "" then st else update_one_push st id note
    | none => st
  (update_one_set st1 id payload.status now, true)

/-- The DELETE handler (main.py lines 259-263): delete_one by id (removes the
first match, a no-op when the id is absent) and return the success flag. -/
def delete_submission (st : DB) (id : Nat) : DB × Bool :=
  ({ st with submission := st.submission.eraseP (fun p => p.1 == id) }, true)

deriving instance DecidableEq for Except

-- ===== concrete fixtures used to instantiate the theorems =====

/-- The empty store with id counter 0. -/
def db0 : DB := ⟨[], [], [], 0⟩

/-- A submission whose name is xyz, with no literal occurrence of the pattern
used in the regex counterexample. -/
def subX : SubmissionDoc :=
  ⟨"xyz", "a@b.com", "t", "s", none, none, none, SubmissionStatus.Pending, [], 0, none⟩

/-- A store holding the single submission subX under id 1. -/
def dbX : DB := ⟨[(1, subX)], [], [], 2⟩

/-- The page the list endpoint returns for dbX when the filter matches subX. -/
def r0 : ListResult := ⟨[(1, subX)], 1, 1, 10⟩

/-- A no-file form whose name is the empty string but whose email is valid. -/
def formEmptyName : SubmitForm := ⟨"", "a@b.com", "T", "S", none, none⟩

/-- A valid no-file form. -/
def formPlain : SubmitForm := ⟨"N", "a@b.com", "T", "S", none, none⟩

/-- A small four-byte PDF upload. -/
def pdfSmall : UploadFile := ⟨"x.pdf", [37, 80, 68, 70], none⟩

/-- A valid form carrying the small PDF. -/
def formSmall : SubmitForm := ⟨"N", "a@b.com", "T", "S", none, some pdfSmall⟩

/-- An upload whose filename extension is not .pdf. -/
def txtFile : UploadFile := ⟨"a.txt", [1, 2], none⟩

/-- A form carrying the non-PDF upload. -/
def formTxt : SubmitForm := ⟨"N", "a@b.com", "T", "S", none, some txtFile⟩


-- ===== helper lemmas =====

/-- decVal inverts b64Char on every 6-bit value (finite check). -/
theorem decVal_b64Char_fin : ∀ i : Fin 64, decVal (b64Char i.val) = i.val := by decide

/-- No alphabet character is the padding character (finite check). -/
theorem b64Char_ne_pad_fin : ∀ i : Fin 64, b64Char i.val ≠ '=' := by decide

/-- decVal inverts b64Char below 64. -/
theorem decVal_b64Char (i : Nat) (h : i < 64) : decVal (b64Char i) = i :=
  decVal_b64Char_fin ⟨i, h⟩

/-- Alphabet characters are never the padding character. -/
theorem b64Char_ne_pad (i : Nat) (h : i < 64) : b64Char i ≠ '=' :=
  b64Char_ne_pad_fin ⟨i, h⟩

/-- Decoding inverts encoding on byte lists. -/
theorem b64_roundtrip : ∀ bs : List Nat, (∀ x ∈ bs, x < 256) →
    b64DecodeList (b64EncodeList bs) = bs
  | [], _ => rfl
  | [a], h => by
    have ha : a < 256 := h a (by simp)
    have h1 : a / 4 < 64 := by omega
    have h2 : a % 4 * 16 < 64 := by omega
    simp only [b64EncodeList, b64DecodeList]
    rw [decVal_b64Char _ h1, decVal_b64Char _ h2]
    have e1 : a / 4 * 4 + a % 4 * 16 / 16 = a := by omega
    rw [e1]
    simp
  | [a, b], h => by
    have ha : a < 256 := h a (by simp)
    have hb : b < 256 := h b (by simp)
    have h1 : a / 4 < 64 := by omega
    have h2 : a % 4 * 16 + b / 16 < 64 := by omega
    have h3 : b % 16 * 4 < 64 := by omega
    simp only [b64EncodeList, b64DecodeList]
    rw [decVal_b64Char _ h1, decVal_b64Char _ h2, decVal_b64Char _ h3]
    have e1 : a / 4 * 4 + (a % 4 * 16 + b / 16) / 16 = a := by omega
    have e2 : (a % 4 * 16 + b / 16) % 16 * 16 + b % 16 * 4 / 4 = b := by omega
    rw [e1, e2]
    simp [b64Char_ne_pad _ h3]
  | a :: b :: c :: rest, h => by
    have ha : a < 256 := h a (by simp)
    have hb : b < 256 := h b (by simp)
    have hc : c < 256 := h c (by simp)
    have h1 : a / 4 < 64 := by omega
    have h2 : a % 4 * 16 + b / 16 < 64 := by omega
    have h3 : b % 16 * 4 + c / 64 < 64 := by omega
    have h4 : c % 64 < 64 := by omega
    have ih := b64_roundtrip rest (fun x hx => h x
      (List.mem_cons_of_mem _ (List.mem_cons_of_mem _ (List.mem_cons_of_mem _ hx))))
    simp only [b64EncodeList, b64DecodeList]
    rw [decVal_b64Char _ h1, decVal_b64Char _ h2, decVal_b64Char _ h3, decVal_b64Char _ h4]
    have e1 : a / 4 * 4 + (a % 4 * 16 + b / 16) / 16 = a := by omega
    have e2 : (a % 4 * 16 + b / 16) % 16 * 16 + (b % 16 * 4 + c / 64) / 4 = b := by omega
    have e3 : (b % 16 * 4 + c / 64) % 4 * 64 + c % 64 = c := by omega
    rw [e1, e2, e3, ih]
    simp [b64Char_ne_pad _ h3, b64Char_ne_pad _ h4]

/-- String-level roundtrip: decoding the stored encoding recovers the bytes. -/
theorem b64_string_roundtrip (bs : List Nat) (h : ∀ x ∈ bs, x < 256) :
    b64decode (b64encode bs) = bs :=
  b64_roundtrip bs h

/-- On a pattern without the dot wildcard, the regex-fragment prefix match is
the literal prefix match. -/
theorem patMatchAt_no_dot : ∀ ps : List Char, '.' ∉ ps →
    ∀ t : List Char, patMatchAt ps t = litMatchAt ps t
  | [], _, t => by cases t <;> rfl
  | p :: ps, h, t => by
    have hp : p ≠ '.' := fun e => h (e ▸ List.mem_cons_self p ps)
    have hps : '.' ∉ ps := fun e => h (List.mem_cons_of_mem _ e)
    cases t with
    | nil => rfl
    | cons c cs =>
      have hpb : (p == '.') = false := beq_eq_false_iff_ne.mpr hp
      simp only [patMatchAt, litMatchAt, hpb, Bool.false_or,
        patMatchAt_no_dot ps hps cs]

/-- On a query without the dot wildcard, the regex search coincides with
case-insensitive literal substring occurrence. -/
theorem regexFindCI_no_dot (q : String) (h : '.' ∉ q.data) (s : String) :
    regexFindCI q s = substrCI q s := by
  unfold regexFindCI substrCI
  have : (fun t => patMatchAt q.data t) = (fun t => litMatchAt q.data t) :=
    funext fun t => patMatchAt_no_dot q.data h t
  rw [this]

/-- The empty query matches every string under the regex search. -/
theorem regexFindCI_empty (s : String) : regexFindCI "" s = true := by
  unfold regexFindCI
  cases s.data with
  | nil => rfl
  | cons c cs => rfl

/-- Membership in a descending insertion comes from the head or the list. -/
theorem mem_insertDesc (x p : Nat × SubmissionDoc) :
    ∀ l : List (Nat × SubmissionDoc), p ∈ insertDesc x l → p = x ∨ p ∈ l
  | [], h => Or.inl (List.mem_singleton.mp h)
  | y :: ys, h => by
    unfold insertDesc at h
    by_cases hc : x.2.submitted_at ≤ y.2.submitted_at
    · rw [if_pos hc] at h
      rcases List.mem_cons.mp h with h1 | h2
      · exact Or.inr (h1 ▸ List.mem_cons_self y ys)
      · rcases mem_insertDesc x p ys h2 with h3 | h4
        · exact Or.inl h3
        · exact Or.inr (List.mem_cons_of_mem _ h4)
    · rw [if_neg hc] at h
      rcases List.mem_cons.mp h with h1 | h2
      · exact Or.inl h1
      · exact Or.inr h2

/-- Sorting by date preserves membership (the direction the proofs need). -/
theorem mem_sortByDateDesc (p : Nat × SubmissionDoc) :
    ∀ l : List (Nat × SubmissionDoc), p ∈ sortByDateDesc l → p ∈ l
  | [], h => (List.not_mem_nil p h).elim
  | x :: xs, h => by
    unfold sortByDateDesc at h
    rcases mem_insertDesc x p (sortByDateDesc xs) h with h1 | h2
    · exact h1 ▸ List.mem_cons_self x xs
    · exact List.mem_cons_of_mem _ (mem_sortByDateDesc p xs h2)

/-- A conditional map whose condition matches no element is the identity. -/
theorem map_update_no_match (f : Nat × SubmissionDoc → Nat × SubmissionDoc) (id : Nat) :
    ∀ l : List (Nat × SubmissionDoc), (∀ p ∈ l, p.1 ≠ id) →
      l.map (fun p => if p.1 = id then f p else p) = l
  | [], _ => rfl
  | a :: t, h => by
    simp only [List.map_cons]
    rw [if_neg (h a (List.mem_cons_self a t)),
      map_update_no_match f id t (fun p hp => h p (List.mem_cons_of_mem _ hp))]

/-- Erasing by an id present nowhere is the identity. -/
theorem eraseP_no_match (id : Nat) :
    ∀ l : List (Nat × SubmissionDoc), (∀ p ∈ l, p.1 ≠ id) →
      l.eraseP (fun p => p.1 == id) = l
  | [], _ => rfl
  | a :: t, h => by
    rw [List.eraseP_cons]
    have hb : (a.1 == id) = false :=
      beq_eq_false_iff_ne.mpr (h a (List.mem_cons_self a t))
    simp only [hb, cond_false]
    rw [eraseP_no_match id t (fun p hp => h p (List.mem_cons_of_mem _ hp))]

/-- find? skips a block in which no element satisfies the predicate. -/
theorem find?_append_right (p : Nat × StoredFileDoc → Bool) :
    ∀ l1 l2 : List (Nat × StoredFileDoc), (∀ x ∈ l1, p x = false) →
      (l1 ++ l2).find? p = l2.find? p
  | [], _, _ => rfl
  | a :: t, l2, h => by
    rw [List.cons_append, List.find?_cons_of_neg]
    · exact find?_append_right p t l2 (fun x hx => h x (List.mem_cons_of_mem _ hx))
    · simp [h a (List.mem_cons_self a t)]

/-- The second half of the submit handler, on a valid email: the exact new
store state (submission appended under the store id, notification logged) and
the returned identifier. -/
theorem finishSubmission_ok (st : DB) (form : SubmitForm) (fu : Option String)
    (fk : Option Nat) (now : Nat) (hem : emailValid form.email = true) :
    finishSubmission st form fu fk now =
      ({ st with
          submission := st.submission ++
            [(st.nextId, ⟨form.name, form.email, form.novel_title, form.synopsis,
              form.message, fu, fk, SubmissionStatus.Pending, [], now, none⟩)],
          notifications := st.notifications ++
            [(st.nextId + 1, ⟨"new_submission", STUDIO_EMAIL,
              "New Submission: " ++ form.novel_title,
              ⟨form.name, form.email, form.novel_title, form.synopsis,
                form.message, fu, fk, SubmissionStatus.Pending, [], now, none⟩, now⟩)],
          nextId := st.nextId + 1 + 1 },
        .ok st.nextId) := by
  unfold finishSubmission create_submission_doc create_notification
  rw [hem]
  rfl

/-- Decoding a token built by create_access_token: expired exactly when now is
past the embedded expiry, which is issuance time plus the delta (default: the
configured minutes). -/
theorem jwt_decode_create (sub : Option String) (delta : Option Nat) (T now : Nat) :
    jwt_decode (create_access_token sub delta T) SECRET_KEY now =
      if T + delta.getD (ACCESS_TOKEN_EXPIRE_MINUTES * 60) < now then
        .error .expiredSignature
      else .ok ⟨sub, some (T + delta.getD (ACCESS_TOKEN_EXPIRE_MINUTES * 60))⟩ := by
  unfold jwt_decode create_access_token jwt_encode
  simp

-- ===== claim theorems =====

/-- C1: for every admin-only request whose bearer token fails validation —
invalid signature, expired token, missing subject, or subject not matching the
admin email case-insensitively — get_current_admin signals the same single
generic 401 error with detail "Could not validate credentials": every outcome
is either success or that one error. -/
theorem C1_generic_auth_error (t : JWTToken) (now : Nat) :
    get_current_admin t now = .ok ADMIN_EMAIL ∨
    get_current_admin t now = .error (.http 401 "Could not validate credentials") := by
  cases hdec : jwt_decode t SECRET_KEY now with
  | error e =>
    right
    simp only [get_current_admin, hdec]
  | ok payload =>
    cases hsub : payload.sub with
    | none =>
      right
      simp only [get_current_admin, hdec, hsub]
    | some email =>
      by_cases hm : (pyLower email == pyLower ADMIN_EMAIL) = true
      · left
        simp [get_current_admin, hdec, hsub, hm]
      · right
        simp [get_current_admin, hdec, hsub, hm]

/-- C2: a token issued by create_access_token at time T with the default
expiry embeds the expiry T + 12 hours exactly; validating it through
get_current_admin succeeds at T + 1 hour and fails at T + 13 hours. -/
theorem C2_token_expiry (T : Nat) :
    (create_access_token (some ADMIN_EMAIL) none T).claims.exp = some (T + 12 * 3600) ∧
    get_current_admin (create_access_token (some ADMIN_EMAIL) none T) (T + 3600) =
      .ok ADMIN_EMAIL ∧
    get_current_admin (create_access_token (some ADMIN_EMAIL) none T) (T + 13 * 3600) =
      .error (.http 401 "Could not validate credentials") := by
  refine ⟨rfl, ?_, ?_⟩
  · unfold get_current_admin
    rw [jwt_decode_create, if_neg (by simp [ACCESS_TOKEN_EXPIRE_MINUTES])]
    simp
  · unfold get_current_admin
    rw [jwt_decode_create, if_pos (by simp [ACCESS_TOKEN_EXPIRE_MINUTES])]

/-- C3: a create-submission request whose attached file is not named with a
.pdf extension (case-insensitively) fails with the 400 validation error and
leaves the store completely unchanged: no Submission, StoredFile, or
NotificationLog document is created. -/
theorem C3_nonpdf_rejected (st : DB) (form : SubmitForm) (now : Nat) (f : UploadFile)
    (hf : form.file = some f) (hpdf : pdfNameOk f.filename = false) :
    submit_project st form now = (st, .error (.http 400 "Only PDF uploads are allowed")) := by
  simp only [submit_project, hf]
  rw [if_pos hpdf]

/-- C3 witness: the concrete .txt upload is rejected and the store stays db0. -/
theorem C3_witness :
    submit_project db0 formTxt 0 = (db0, .error (.http 400 "Only PDF uploads are allowed")) :=
  C3_nonpdf_rejected db0 formTxt 0 txtFile rfl (by decide)

/-- C4: a create-submission request with an attached PDF (valid otherwise) is
rejected with the 400 size error exactly when the content exceeds 10 MiB; at
10 MiB or below the submission is accepted and an id is returned. -/
theorem C4_size_boundary (st : DB) (form : SubmitForm) (now : Nat) (f : UploadFile)
    (hf : form.file = some f) (hpdf : pdfNameOk f.filename = true)
    (hem : emailValid form.email = true) :
    if f.content.length > 10 * 1024 * 1024 then
      submit_project st form now =
        (st, .error (.http 400 "File too large (max 10MB in demo)"))
    else (submit_project st form now).2 = .ok (st.nextId + 1) := by
  by_cases hs : f.content.length > 10 * 1024 * 1024
  · rw [if_pos hs]
    simp only [submit_project, hf]
    rw [if_neg (by simp [hpdf]), if_pos hs]
  · rw [if_neg hs]
    simp only [submit_project, hf, create_submission_file]
    rw [if_neg (by simp [hpdf]), if_neg hs]
    rw [finishSubmission_ok _ _ _ _ _ hem]

/-- C4 witness: the concrete small PDF is under the bound, so the submission
is accepted and the new submission id is returned. -/
theorem C4_witness : (submit_project db0 formSmall 0).2 = .ok (db0.nextId + 1) := by
  have h := C4_size_boundary db0 formSmall 0 pdfSmall rfl (by decide) (by decide)
  rw [show pdfSmall.content.length = 4 from rfl] at h
  rw [if_neg (by omega)] at h
  exact h

/-- C5: a valid create-submission request without a file persists exactly one
new Submission whose status is Pending, notes are empty, file_url and
file_key are absent, and submitted_at is the creation instant. -/
theorem C5_no_file_defaults (st : DB) (form : SubmitForm) (now : Nat)
    (hf : form.file = none) (hem : emailValid form.email = true) :
    (submit_project st form now).1.submission =
      st.submission ++ [(st.nextId, ⟨form.name, form.email, form.novel_title,
        form.synopsis, form.message, none, none, SubmissionStatus.Pending, [], now, none⟩)] ∧
    (submit_project st form now).2 = .ok st.nextId := by
  simp only [submit_project, hf]
  rw [finishSubmission_ok _ _ _ _ _ hem]
  exact ⟨rfl, rfl⟩

/-- C5 witness: the concrete no-file form creates the expected record. -/
theorem C5_witness :
    (submit_project db0 formPlain 7).1.submission =
      db0.submission ++ [(db0.nextId, ⟨formPlain.name, formPlain.email,
        formPlain.novel_title, formPlain.synopsis, formPlain.message, none, none,
        SubmissionStatus.Pending, [], 7, none⟩)] ∧
    (submit_project db0 formPlain 7).2 = .ok db0.nextId :=
  C5_no_file_defaults db0 formPlain 7 rfl (by decide)

/-- C6: a PDF accepted by create-submission can be fetched back through the
file endpoint under the store id it was assigned: the served bytes are
identical to the uploaded bytes (the base64 encoding round-trips) and come
with the stored MIME type (the declared content type, or application/pdf). -/
theorem C6_file_roundtrip (st : DB) (form : SubmitForm) (now : Nat) (f : UploadFile)
    (hf : form.file = some f) (hpdf : pdfNameOk f.filename = true)
    (hsize : f.content.length ≤ 10 * 1024 * 1024)
    (hbytes : ∀ b ∈ f.content, b < 256)
    (hem : emailValid form.email = true)
    (hfresh : ∀ p ∈ st.submission_files, p.1 ≠ st.nextId) :
    get_file (submit_project st form now).1 st.nextId =
      .ok (f.content, pyOrDefault f.content_type "application/pdf") := by
  simp only [submit_project, hf, create_submission_file]
  rw [if_neg (by simp [hpdf]), if_neg (by omega)]
  rw [finishSubmission_ok _ _ _ _ _ hem]
  unfold get_file
  rw [find?_append_right _ _ _
    (fun x hx => beq_eq_false_iff_ne.mpr (hfresh x hx))]
  rw [List.find?_cons_of_pos _ (by simp)]
  simp [b64_string_roundtrip _ hbytes]

/-- C6 witness: the concrete small PDF round-trips through the file endpoint. -/
theorem C6_witness :
    get_file (submit_project db0 formSmall 0).1 db0.nextId =
      .ok (pdfSmall.content, pyOrDefault pdfSmall.content_type "application/pdf") :=
  C6_file_roundtrip db0 formSmall 0 pdfSmall rfl (by decide) (by decide) (by decide)
    (by decide) (by decide)

/-- The query built from a bare free-text parameter matches a document exactly
when the unescaped regex disjunction over name, email, and novel_title does. -/
theorem mongoMatch_qonly (q : String) (doc : SubmissionDoc) :
    mongoMatch ⟨none, truthyOpt (some q), none, none⟩ doc = regexOrDoc q doc := by
  by_cases hq : q = ""
  · subst hq
    simp [mongoMatch, truthyOpt, regexOrDoc, regexFindCI_empty]
  · simp [mongoMatch, truthyOpt, beq_eq_false_iff_ne.mpr hq, regexOrDoc]

/-- C7 counterexample: the query x.z (a regex with the dot wildcard) occurs as
a literal substring of none of the fields of subX, so under the claim the
result should be empty; the code still returns subX because the dot matched. -/
theorem C7_cex :
    (list_submissions dbX 1 10 (some "x.z") none none none).2 = .ok r0 ∧
    (substrCI "x.z" subX.name || substrCI "x.z" subX.email ||
      substrCI "x.z" subX.novel_title) = false := by
  constructor
  · decide
  · decide

/-- C7 (amended): the list endpoint filters by interpreting q as an unescaped
case-insensitive regular expression against name, email, and novel_title
(OR); the total is the count of regex-matching submissions and every returned
item regex-matches; this coincides with literal substring matching only when
q contains no regex metacharacters (in the modelled fragment: no dot). -/
theorem C7_regex_not_substring (st : DB) (q : String) (page ps : Nat) (r : ListResult)
    (h : (list_submissions st page ps (some q) none none none).2 = .ok r) :
    r.total = (st.submission.filter (fun p => regexOrDoc q p.2)).length ∧
    (∀ p ∈ r.items, regexOrDoc q p.2 = true) ∧
    ('.' ∉ q.data → ∀ s : String, regexFindCI q s = substrCI q s) := by
  have h' : Except.ok (ε := AppError)
      (runQuery st page ps ⟨none, truthyOpt (some q), none, none⟩) = .ok r := h
  have h0 : r = runQuery st page ps ⟨none, truthyOpt (some q), none, none⟩ :=
    (Except.ok.inj h').symm
  subst h0
  refine ⟨?_, ?_, ?_⟩
  · exact congrArg List.length
      (List.filter_congr (fun x _ => mongoMatch_qonly q x.2))
  · intro p hp
    have hp1 := List.take_subset _ _ hp
    have hp2 := List.drop_subset _ _ hp1
    have hp3 := mem_sortByDateDesc _ _ hp2
    have hp4 := (List.mem_filter.mp hp3).2
    rw [mongoMatch_qonly] at hp4
    exact hp4
  · intro hnd s
    exact regexFindCI_no_dot q hnd s

/-- C7 witness: at a concrete store and plain query the amended count holds. -/
theorem C7_witness :
    r0.total = (dbX.submission.filter (fun p => regexOrDoc "y" p.2)).length :=
  (C7_regex_not_substring dbX "y" 1 10 r0 (by decide)).1

/-- C8 counterexample: a malformed date string makes the handler raise the
ValueError of fromisoformat, an unhandled exception (500-equivalent), not an
HTTPException with status 400; no store operation is issued. -/
theorem C8_cex :
    list_submissions db0 1 10 none none (some "not-a-date") none =
      ([], .error (.valueError "Invalid isoformat string: not-a-date")) ∧
    errIs400 (.valueError "Invalid isoformat string: not-a-date") = false := by
  constructor
  · decide
  · decide

/-- C8 (amended): a non-empty start_date that fromisoformat cannot parse makes
the request fail with the unhandled parsing ValueError (surfaced as a
500-equivalent server error, not a 400 validation error), and the failure
happens before any store query is issued (empty operation trace); an empty
date string is falsy in Python and is treated as absent instead. -/
theorem C8_unparseable_date (st : DB) (page ps : Nat) (q status ed : Option String)
    (s : String) (hs : s ≠ "") (hbad : parseISODate s = none) :
    list_submissions st page ps q status (some s) ed =
      ([], .error (.valueError ("Invalid isoformat string: " ++ s))) := by
  have ht : truthyOpt (some s) = some s := by
    simp [truthyOpt, beq_eq_false_iff_ne.mpr hs]
  simp only [list_submissions, ht, parseOptDate, hbad]

/-- C8 witness: the concrete malformed date fails as the amended claim says. -/
theorem C8_witness :
    list_submissions db0 1 10 none none (some "not-a-date") none =
      ([], .error (.valueError ("Invalid isoformat string: " ++ "not-a-date"))) :=
  C8_unparseable_date db0 1 10 none none none "not-a-date" (by decide) (by decide)

/-- C9 counterexample: a no-file request whose required name field is the
empty string is not rejected — it succeeds and creates a Submission record. -/
theorem C9_cex :
    (submit_project db0 formEmptyName 0).2 = .ok 0 ∧
    (submit_project db0 formEmptyName 0).1.submission =
      [(0, ⟨"", "a@b.com", "T", "S", none, none, none,
        SubmissionStatus.Pending, [], 0, none⟩)] := by
  constructor
  · decide
  · decide

/-- C9 (amended): the handler performs no non-emptiness validation on name,
novel_title, or synopsis — any no-file request with a validly formatted email
succeeds and appends a Submission record, whatever those fields contain
(including empty strings); only the email field is format-validated, and an
invalid email (for example the empty string) aborts the request with a
pydantic validation error — not an HTTP 400 — leaving the store unchanged. -/
theorem C9_no_required_emptiness_check (st : DB) (form : SubmitForm) (now : Nat)
    (hf : form.file = none) :
    (emailValid form.email = true →
      (submit_project st form now).2 = .ok st.nextId ∧
      (submit_project st form now).1.submission.length = st.submission.length + 1) ∧
    (emailValid form.email = false →
      submit_project st form now =
        (st, .error (.validationError "value is not a valid email address"))) := by
  constructor
  · intro hem
    constructor
    · simp only [submit_project, hf]
      rw [finishSubmission_ok _ _ _ _ _ hem]
    · simp only [submit_project, hf]
      rw [finishSubmission_ok _ _ _ _ _ hem]
      simp
  · intro hem
    simp only [submit_project, hf, finishSubmission]
    rw [if_pos hem]

/-- C9 witness: the concrete empty-name request succeeds. -/
theorem C9_witness : (submit_project db0 formEmptyName 3).2 = .ok db0.nextId :=
  ((C9_no_required_emptiness_check db0 formEmptyName 3 rfl).1 (by decide)).1

/-- C10: updating a well-formed but nonexistent submission id acknowledges
success and leaves the store unchanged — no existence check is made — exactly
as deleting a nonexistent id does. -/
theorem C10_missing_id_noop (st : DB) (id : Nat) (payload : UpdateSubmission) (now : Nat)
    (h : ∀ p ∈ st.submission, p.1 ≠ id) :
    update_submission st id payload now = (st, true) ∧
    delete_submission st id = (st, true) := by
  have hset : ∀ s : Option SubmissionStatus, update_one_set st id s now = st := by
    intro s
    unfold update_one_set
    rw [map_update_no_match _ _ _ h]
  have hpush : ∀ note : String, update_one_push st id note = st := by
    intro note
    unfold update_one_push
    rw [map_update_no_match _ _ _ h]
  constructor
  · unfold update_submission
    cases hn : payload.add_note with
    | none => simp [hset]
    | some note =>
      by_cases hne : (note == "") = true
      · simp [hne, hset]
      · simp [hne, hpush, hset]
  · unfold delete_submission
    rw [eraseP_no_match _ _ h]

/-- C10 witness: id 2 is absent from dbX; update and delete both no-op. -/
theorem C10_witness :
    update_submission dbX 2 ⟨some SubmissionStatus.Approved, some "note"⟩ 5 = (dbX, true) ∧
    delete_submission dbX 2 = (dbX, true) :=
  C10_missing_id_noop dbX 2 ⟨some SubmissionStatus.Approved, some "note"⟩ 5 (by decide)
